import Mathlib

/-!
Verification development for the COR alert targeting & delivery pipeline.

Shallow embedding of the core components of the `cor-api` application:
the push provider (`app/providers/push_provider.py`), the alert service
(`app/services/alert_service.py`), the cache and weather services
(`app/services/cache_service.py`, `app/services/weather_service.py`),
and the delivery job (`app/jobs/tasks.py`).  Times are modelled as
natural-number seconds, SQL NULL as `Option`, and the PostGIS geometry
engine as an abstract containment oracle.
-/

namespace CorApi

/-! ## Push provider (`app/providers/push_provider.py`)

FCM error code tables, lines 17-34 of the source. -/

def INVALID_TOKEN_ERRORS : List String :=
  [ "UNREGISTERED",
    "INVALID_ARGUMENT",
    "NOT_FOUND",
    "registration-token-not-registered",
    "invalid-registration-token",
    "invalid-argument" ]

def TEMPORARY_ERROR_CODES : List String :=
  [ "UNAVAILABLE",
    "INTERNAL",
    "QUOTA_EXCEEDED",
    "unavailable",
    "internal-error" ]

/-- Boolean infix test on lists of characters. -/
def listInfix [DecidableEq α] (needle : List α) : List α → Bool
  | [] => needle.isEmpty
  | x :: xs => needle.isPrefixOf (x :: xs) || listInfix needle xs

/-- Python's `needle in hay` on strings: substring containment. -/
def strContains (hay needle : String) : Bool :=
  listInfix needle.data hay.data

/-- `PushNotification` dataclass (push_provider.py lines 37-45). -/
structure PushNotification where
  device_token : String
  title : String
  body : String
  data : List (String × String) := []
  platform : String := "android"
deriving Repr, DecidableEq

/-- `PushResult` dataclass (push_provider.py lines 48-57).  These are its
only five fields; in particular there is no `error` field. -/
structure PushResult where
  device_token : String
  success : Bool
  provider_status : String
  error_message : Option String := none
  message_id : Option String := none
deriving Repr, DecidableEq

/-- `any(code in error_str or code in error_code for code in codes)`
(push_provider.py lines 316-319 and 335-338). -/
def errorMatches (codes : List String) (error_str error_code : String) : Bool :=
  codes.any (fun code => strContains error_str code || strContains error_code code)

/-- `PushProvider._handle_fcm_error` (push_provider.py lines 301-360).
`error_str = str(error)`, `error_code = getattr(error, "code", None) or ""`. -/
def handleFcmError (device_token error_str error_code : String) : PushResult :=
  if errorMatches INVALID_TOKEN_ERRORS error_str error_code then
    { device_token := device_token
      success := false
      provider_status := "invalid_token"
      error_message := some ("Token invalid or expired: " ++ error_str) }
  else if errorMatches TEMPORARY_ERROR_CODES error_str error_code then
    { device_token := device_token
      success := false
      provider_status := "failed"
      error_message := some ("Temporary error (retry possible): " ++ error_str) }
  else
    { device_token := device_token
      success := false
      provider_status := "failed"
      error_message := some error_str }

/-- Outcome of the FCM gateway for one message of a `send_each` call:
either a message id, or an exception carrying `str(error)` and a `code`
attribute (defaulted to `""`). -/
inductive FcmSendResponse where
  | ok (message_id : String)
  | err (error_str : String) (error_code : String)
deriving Repr, DecidableEq

/-- One entry of the result list built by `_send_fcm_batch`
(push_provider.py lines 462-480): success maps to a `sent` result,
failure goes through `_handle_fcm_error`. -/
def fcmResultOf (respond : PushNotification → FcmSendResponse)
    (n : PushNotification) : PushResult :=
  match respond n with
  | .ok mid =>
    { device_token := n.device_token
      success := true
      provider_status := "sent"
      message_id := some mid }
  | .err s c => handleFcmError n.device_token s c

/-- `PushProvider._send_fcm_batch` (push_provider.py lines 436-487):
one `messaging.send_each` call for the whole batch, one result per
notification, in order. -/
def sendFcmBatch (respond : PushNotification → FcmSendResponse)
    (batch : List PushNotification) : List PushResult :=
  batch.map (fcmResultOf respond)

/-- `min(batch_size or settings.push_batch_size, 500)`
(push_provider.py lines 383-386).  Python's `or` falls back to the
configured value when the argument is `None` or `0`. -/
def effectiveBatchSize (config : Nat) (batch_size : Option Nat) : Nat :=
  min
    (match batch_size with
     | some b => if b = 0 then config else b
     | none => config)
    500

/-- Fuel-indexed chunking helper; the fuel only bounds the number of
chunks and is instantiated with the list length, which suffices for any
positive step size. -/
def chunksOfFuel (eff : Nat) : Nat → List α → List (List α)
  | 0, _ => []
  | fuel + 1, l =>
    if eff = 0 ∨ l.length = 0 then []
    else l.take eff :: chunksOfFuel eff fuel (l.drop eff)

/-- The slices `notifications[i : i + eff]` for `i in range(0, len, eff)`
(push_provider.py lines 420-421).  Python raises `ValueError` for step 0;
that branch is modelled as `[]` and is unreachable for `eff > 0`. -/
def chunksOf (eff : Nat) (l : List α) : List (List α) :=
  chunksOfFuel eff l.length l

/-- Observable interaction of `send_batch` with the gateway: one batch
call per chunk, a `delay` between consecutive chunks. -/
inductive BatchEvent where
  | call (batch : List PushNotification)
  | delay
deriving Repr, DecidableEq

/-- Trace of provider calls produced by the loop of `send_batch`
(push_provider.py lines 420-426): after each chunk, a delay is awaited
iff `i + eff < len(notifications)`, i.e. iff the chunk is not the last. -/
def traceOf : List (List PushNotification) → List BatchEvent
  | [] => []
  | [c] => [.call c]
  | c :: c' :: rest => .call c :: .delay :: traceOf (c' :: rest)

/-- `PushProvider.send_batch` on the configured-FCM path
(push_provider.py lines 362-434): empty input short-circuits to `[]`;
otherwise the notifications are chunked by the effective batch size and
each chunk is sent with one `_send_fcm_batch` call, results concatenated
in order.  Returns the result list and the gateway event trace. -/
def sendBatch (respond : PushNotification → FcmSendResponse) (config : Nat)
    (batch_size : Option Nat) (notifications : List PushNotification) :
    List PushResult × List BatchEvent :=
  if notifications.isEmpty then ([], [])
  else
    let eff := effectiveBatchSize config batch_size
    let chunks := chunksOf eff notifications
    ((chunks.map (sendFcmBatch respond)).flatten, traceOf chunks)

/-- The batches named in a gateway event trace. -/
def callsOf : List BatchEvent → List (List PushNotification)
  | [] => []
  | .call b :: rest => b :: callsOf rest
  | .delay :: rest => callsOf rest

/-- The number of delays in a gateway event trace. -/
def delaysOf : List BatchEvent → Nat
  | [] => 0
  | .delay :: rest => delaysOf rest + 1
  | .call _ :: rest => delaysOf rest

/-- Fixed sample notification for concrete instantiations. -/
def sampleNotif : PushNotification :=
  { device_token := "device-token-0000000001", title := "t", body := "b" }

/-- Fixed all-success gateway behavior for concrete instantiations. -/
def sampleRespondOk : PushNotification → FcmSendResponse :=
  fun _ => .ok "mock-message-id"

/-! ## Device targeting (`app/services/alert_service.py`)

The PostGIS geometry engine is an external collaborator; geometries are
opaque handles and `ST_Contains` is an arbitrary containment oracle
passed to every definition that issues a spatial predicate. -/

/-- A point location (SRID 4326), abstracted to integer coordinates. -/
structure GeoPoint where
  lon : Int
  lat : Int
deriving Repr, DecidableEq

/-- `DeviceModel` (app/models/device.py).  `Option` models SQL NULL; the
`push_token` column is declared NOT NULL, but the query layer still
guards it with `isnot(None)`, so it is kept optional here. -/
structure Device where
  id : String
  platform : Option String
  push_token : Option String
  last_location : Option GeoPoint
  neighborhoods : Option (List String)
deriving Repr, DecidableEq

/-- `AlertAreaModel` (app/models/alert.py lines 66-88); the multipolygon
geometry is an opaque handle interpreted by the containment oracle. -/
structure AlertArea where
  id : String
  geom : Nat
deriving Repr, DecidableEq

/-- `AlertModel` (app/models/alert.py lines 15-63) with its `areas`
relationship loaded. -/
structure Alert where
  id : String
  title : String
  body : String
  severity : String
  status : String
  broadcast : Bool
  neighborhoods : Option (List String)
  expires_at : Option Nat
  sent_at : Option Nat
  created_by : Option String
  areas : List AlertArea
deriving Repr, DecidableEq

/-- Python truthiness of an optional list: `None` and `[]` are falsy. -/
def optListTruthy (o : Option (List String)) : Bool :=
  match o with
  | none => false
  | some l => !l.isEmpty

/-- SQL array overlap `&&` (`DeviceModel.neighborhoods.overlap`): the two
arrays share at least one element. -/
def arrayOverlap (l1 l2 : List String) : Bool :=
  l1.any (fun x => l2.contains x)

/-- Per-area geo condition (alert_service.py lines 333-336):
`last_location IS NOT NULL AND ST_Contains(area.geom, last_location)`. -/
def geoCondition (st_contains : Nat → GeoPoint → Bool) (area : AlertArea)
    (d : Device) : Bool :=
  match d.last_location with
  | some p => st_contains area.geom p
  | none => false

/-- The neighborhood-fallback condition of the device query
(alert_service.py lines 340-347) together with its guard: the condition
is only added to the query when the alert's `neighborhoods` list is
truthy, and requires the device to have no location, a non-NULL
neighborhoods array, and an overlap with the alert's list. -/
def neighborhoodCondition (alert : Alert) (d : Device) : Bool :=
  optListTruthy alert.neighborhoods &&
  (d.last_location.isNone &&
   (d.neighborhoods.isSome &&
    arrayOverlap (d.neighborhoods.getD []) (alert.neighborhoods.getD [])))

/-- `AlertService._build_device_query` (alert_service.py lines 316-354) as
the membership predicate of the query it returns: the base filter is
`push_token IS NOT NULL`; a broadcast alert returns the base query
unrestricted; otherwise the per-area geo conditions and the (guarded)
neighborhood condition are OR'd, and with no condition at all the query
is `base WHERE false`. -/
def buildDeviceQueryPred (st_contains : Nat → GeoPoint → Bool) (alert : Alert)
    (d : Device) : Bool :=
  let base := d.push_token.isSome
  if alert.broadcast then base
  else
    let geoConds := alert.areas.map (fun a => geoCondition st_contains a d)
    let nbhdConds :=
      if optListTruthy alert.neighborhoods then
        [d.last_location.isNone &&
         (d.neighborhoods.isSome &&
          arrayOverlap (d.neighborhoods.getD []) (alert.neighborhoods.getD []))]
      else []
    let conds := geoConds ++ nbhdConds
    if conds.isEmpty then base && false
    else base && conds.any id

/-- `AlertService.get_targeted_devices` (alert_service.py lines 310-314):
the devices of the store that satisfy the query predicate. -/
def getTargetedDevices (st_contains : Nat → GeoPoint → Bool) (alert : Alert)
    (devices : List Device) : List Device :=
  devices.filter (buildDeviceQueryPred st_contains alert)

/-- Fixed containment oracle for concrete instantiations. -/
def sampleContains : Nat → GeoPoint → Bool := fun _ _ => false

/-- Concrete non-broadcast alert targeting one neighborhood. -/
def nbhdAlert : Alert :=
  { id := "alert-1", title := "Heavy rain", body := "take care",
    severity := "alert", status := "sent", broadcast := false,
    neighborhoods := some ["copacabana"], expires_at := none,
    sent_at := some 100, created_by := none, areas := [] }

/-- Concrete broadcast alert that nevertheless carries areas and
neighborhoods. -/
def broadcastAlert : Alert :=
  { id := "alert-2", title := "City wide", body := "stay home",
    severity := "emergency", status := "sent", broadcast := true,
    neighborhoods := some ["centro"], expires_at := none,
    sent_at := some 200, created_by := none,
    areas := [{ id := "area-1", geom := 7 }] }

/-- Concrete non-broadcast alert with no areas and no neighborhoods. -/
def emptyTargetAlert : Alert :=
  { id := "alert-3", title := "Untargeted", body := "nothing",
    severity := "info", status := "sent", broadcast := false,
    neighborhoods := none, expires_at := none,
    sent_at := some 300, created_by := none, areas := [] }

/-- Concrete device with a push token, no location, two neighborhoods. -/
def deviceA : Device :=
  { id := "device-a", platform := some "android",
    push_token := some "token-a-0123456789", last_location := none,
    neighborhoods := some ["copacabana", "ipanema"] }

/-- Concrete device with a NULL push token. -/
def deviceNoToken : Device :=
  { id := "device-b", platform := some "ios", push_token := none,
    last_location := none, neighborhoods := none }

/-! ## Cache store and weather service
(`app/services/cache_service.py`, `app/services/weather_service.py`)

The CacheStore is Redis: `CacheService.set` writes the serialized payload
and a write timestamp with `SETEX ttl`, and a `GET` no longer returns a
key once its TTL has elapsed.  Time is a natural number of seconds. -/

/-- One cached entry for a `(namespace, key)` pair: serialized payload,
write timestamp and the TTL passed to `SETEX` at write time
(`CacheService.set`, cache_service.py lines 84-129). -/
structure CacheEntry where
  value : String
  written_at : Nat
  ttl : Nat
deriving Repr, DecidableEq

/-- Redis `GET` semantics for an entry written with `SETEX ttl`: the key
is returned iff fewer than `ttl` seconds have elapsed since the write. -/
def cacheLive (store : Option CacheEntry) (now : Nat) : Option CacheEntry :=
  match store with
  | some e => if now < e.written_at + e.ttl then some e else none
  | none => none

/-- `CacheInfo` (app/schemas/common.py) as filled by the cache service. -/
structure CacheInfo where
  stale : Bool
  age_seconds : Option Nat
deriving Repr, DecidableEq

/-- `CacheService.get_fallback` (cache_service.py lines 188-204), built on
`get` (lines 131-186): read the entry and its timestamp key; on a hit the
age is `int((now - cached_at).total_seconds())` and `get_fallback` flips
`stale` to `true`; a missing (or expired) key yields `(None, None)`. -/
def getFallback (store : Option CacheEntry) (now : Nat) :
    Option String × Option CacheInfo :=
  match cacheLive store now with
  | some e =>
    (some e.value, some { stale := true, age_seconds := some (now - e.written_at) })
  | none => (none, none)

/-- Outcome of `WeatherProvider.fetch_current` as observed by the weather
service: a successful `ProviderResult` carrying data, a failed
`ProviderResult` (success false or data missing), or a raised
exception. -/
inductive FetchOutcome where
  | ok (data : String)
  | failedResult (error : String)
  | raised (message : String)
deriving Repr, DecidableEq

/-- Application error (`app/core/errors.py`): code, message, HTTP status. -/
structure AppErr where
  code : String
  message : String
  status_code : Nat
deriving Repr, DecidableEq

/-- The `ProviderException` raised when neither the provider nor the
cache can serve (weather_service.py lines 108-112); `ProviderException`
defaults to HTTP 502 (errors.py). -/
def weatherUnavailable : AppErr :=
  { code := "WEATHER_UNAVAILABLE", message := "Weather data unavailable",
    status_code := 502 }

/-- `WeatherNowResponse` restricted to the fields the claims inspect. -/
structure WeatherNowResp where
  success : Bool
  data : String
  cache : Option CacheInfo
deriving Repr, DecidableEq

/-- Whether the provider outcome is a failure (error result or raised
exception). -/
def fetchFailed : FetchOutcome → Bool
  | .ok _ => false
  | .failedResult _ => true
  | .raised _ => true

/-- `WeatherService.get_current_weather` (weather_service.py lines
50-112).  On provider success the payload is cached under
`ttl = nominal_ttl * 2` and returned fresh.  `cache_write_ok = false`
models `CacheService.set` raising `CacheException` (cache_service.py
lines 124-129 log and re-raise on failure): that exception is caught by
the service's generic `except Exception` handler, so control falls
through to the cache-fallback path even though the provider call itself
succeeded, leaving the store unwritten.  On the fallback path a live
cached entry is served with its staleness info, and otherwise the typed
`ProviderException` is raised.  Returns the store after the call and the
response-or-error. -/
def getCurrentWeather (fetch : FetchOutcome) (cache_write_ok : Bool)
    (store : Option CacheEntry) (now : Nat) (nominal_ttl : Nat) :
    Option CacheEntry × Except AppErr WeatherNowResp :=
  let fallback : Option CacheEntry × Except AppErr WeatherNowResp :=
    match getFallback store now with
    | (some v, info) => (store, .ok { success := true, data := v, cache := info })
    | (none, _) => (store, .error weatherUnavailable)
  match fetch with
  | .ok d =>
    if cache_write_ok then
      (some { value := d, written_at := now, ttl := nominal_ttl * 2 },
       .ok { success := true, data := d, cache := none })
    else fallback
  | .failedResult _ => fallback
  | .raised _ => fallback

/-! ## Alert lifecycle: the send operation
(`app/services/alert_service.py` lines 227-300) -/

/-- `NotFoundError("Alert not found")` (errors.py lines 85-100):
code `NOT_FOUND`, HTTP 404. -/
def alertNotFound : AppErr :=
  { code := "NOT_FOUND", message := "Alert not found", status_code := 404 }

/-- `ValidationException(message, field="status")` (errors.py): code
`VALIDATION_ERROR`, HTTP 422 — the status the API exception handler in
`app/main.py` returns to the client. -/
def validationError (message : String) : AppErr :=
  { code := "VALIDATION_ERROR", message := message, status_code := 422 }

/-- `AlertService.send_alert` (alert_service.py lines 227-300) as a state
transition on the alert table.  The service raises before any mutation
when the alert is missing, already `sent`, or `canceled`; only on the
success path does it count the targeted devices, flip the status to
`sent`, stamp `sent_at := now` and commit.  The Celery enqueue is
abstracted by `task_id`.  Returns the table after the call and the
response `(alert, devices_targeted, task_id)` or the raised error. -/
def sendAlertService (st_contains : Nat → GeoPoint → Bool)
    (alerts : List Alert) (devices : List Device) (alert_id : String)
    (now : Nat) (task_id : Option String) :
    List Alert × Except AppErr (Alert × Nat × Option String) :=
  match alerts.find? (fun a => a.id == alert_id) with
  | none => (alerts, .error alertNotFound)
  | some a =>
    if a.status = "sent" then
      (alerts, .error (validationError "Alert already sent"))
    else if a.status = "canceled" then
      (alerts, .error (validationError "Alert was canceled"))
    else
      let devices_count := (devices.filter (buildDeviceQueryPred st_contains a)).length
      let a' := { a with status := "sent", sent_at := some now }
      (alerts.map (fun b => if b.id = alert_id then a' else b),
       .ok (a', devices_count, task_id))

/-- Concrete alert already in `sent` status. -/
def sentAlert : Alert :=
  { id := "alert-s", title := "Sent already", body := "b",
    severity := "info", status := "sent", broadcast := true,
    neighborhoods := none, expires_at := none,
    sent_at := some 50, created_by := none, areas := [] }

/-! ## Delivery job (`app/jobs/tasks.py` lines 333-489) -/

/-- Python values that an attribute access on a `PushResult` yields. -/
inductive PyValue where
  | str (s : String)
  | boolean (b : Bool)
  | optStr (s : Option String)
deriving Repr, DecidableEq

/-- The attribute dictionary of the `PushResult` dataclass — exactly its
five fields (push_provider.py lines 48-57). -/
def pushResultAttrs (r : PushResult) : List (String × PyValue) :=
  [ ("device_token", .str r.device_token),
    ("success", .boolean r.success),
    ("provider_status", .str r.provider_status),
    ("error_message", .optStr r.error_message),
    ("message_id", .optStr r.message_id) ]

/-- Python attribute access on a `PushResult`; `none` models the
`AttributeError` raised when the dataclass has no such field. -/
def pyGetAttr (r : PushResult) (name : String) : Option PyValue :=
  (pushResultAttrs r).lookup name

/-- `AlertDeliveryModel` row (app/models/alert.py lines 91-127). -/
structure DeliveryRow where
  alert_id : String
  device_id : String
  sent_at : Nat
  read_at : Option Nat
  provider_status : String
  error_message : Option String
deriving Repr, DecidableEq

/-- The text of the `AttributeError` the recording loop raises (modelled
without the Python quoting). -/
def errorAttrMessage : String :=
  "AttributeError: PushResult object has no attribute error"

/-- The per-result delivery-recording loop of one batch of `_send_alert`
(tasks.py lines 427-438): for each `(push_result, device)` pair it
constructs an `AlertDeliveryModel` with
`provider_status = "sent" if push_result.success else "failed"` and
`error_message = push_result.error`.  The `PushResult` dataclass has no
`error` attribute, so that access raises; the raised error aborts the
batch before `db.commit()`. -/
def recordBatch (alert_id : String) (now : Nat) :
    List (PushResult × Device) → Except String (List DeliveryRow)
  | [] => .ok []
  | (push_result, device) :: rest =>
    match pyGetAttr push_result "error" with
    | none => .error errorAttrMessage
    | some v =>
      let err : Option String :=
        match v with
        | .optStr s => s
        | .str s => some s
        | .boolean _ => none
      match recordBatch alert_id now rest with
      | .ok rows =>
        .ok ({ alert_id := alert_id, device_id := device.id, sent_at := now,
               read_at := none,
               provider_status := if push_result.success then "sent" else "failed",
               error_message := err } :: rows)
      | .error e => .error e

/-- The notification built for one targeted device (tasks.py lines
402-416); `platform = device.platform or "android"`. -/
def buildNotification (alert : Alert) (device : Device) : PushNotification :=
  { device_token := device.push_token.getD "",
    title := alert.title,
    body := alert.body,
    data := [("alert_id", alert.id), ("severity", alert.severity), ("type", "alert")],
    platform := device.platform.getD "android" }

/-- The batch loop of `_send_alert` (tasks.py lines 418-457): for each
batch of 100 devices, push (one result per device, modelled by the
gateway behavior `respond`), then record and commit the deliveries.  The
blanket `except Exception` (lines 459-461) turns the first raised error
into an early return, keeping only the rows committed by earlier
batches; `none` in the second component means no exception occurred. -/
def runBatches (alert : Alert) (respond : PushNotification → FcmSendResponse)
    (now : Nat) (committed : List DeliveryRow) :
    List (List Device) → List DeliveryRow × Option String
  | [] => (committed, none)
  | batch :: rest =>
    let results := batch.map (fun d => fcmResultOf respond (buildNotification alert d))
    match recordBatch alert.id now (results.zip batch) with
    | .ok rows => runBatches alert respond now (committed ++ rows) rest
    | .error e => (committed, some e)

/-- Outcome dict of `_send_alert`: `{"success": false, "error": ...}` or
`{"success": true, "success": n, "failed": m, "total": t}`. -/
inductive JobOutcome where
  | failure (error : String)
  | succeeded (sent : Nat) (failed : Nat) (total : Nat)
deriving Repr, DecidableEq

/-- `_send_alert` (tasks.py lines 333-465): reload the alert (abort when
missing or no longer `sent`), recompute the target set with the same
device query as the service, push in batches of 100 and record
deliveries.  Returns the delivery table after the job together with the
outcome. -/
def sendAlertJob (st_contains : Nat → GeoPoint → Bool) (alerts : List Alert)
    (devices : List Device) (deliveries : List DeliveryRow)
    (respond : PushNotification → FcmSendResponse) (alert_id : String)
    (now : Nat) : List DeliveryRow × JobOutcome :=
  match alerts.find? (fun a => a.id == alert_id) with
  | none => (deliveries, .failure "Alert not found")
  | some alert =>
    if alert.status ≠ "sent" then (deliveries, .failure "Alert not in sent status")
    else
      let targeted := getTargetedDevices st_contains alert devices
      if targeted.isEmpty then (deliveries, .succeeded 0 0 0)
      else
        match runBatches alert respond now deliveries (chunksOf 100 targeted) with
        | (committed, some e) => (committed, .failure e)
        | (committed, none) =>
          let results := targeted.map
            (fun d => fcmResultOf respond (buildNotification alert d))
          (committed,
           .succeeded (results.filter (fun r => r.success)).length
             (results.filter (fun r => !r.success)).length targeted.length)

/-- Concrete pre-existing delivery row for (alert-s, device-a). -/
def pendingDelivery : DeliveryRow :=
  { alert_id := "alert-s", device_id := "device-a", sent_at := 10,
    read_at := none, provider_status := "pending", error_message := none }

/-! ## Inbox (`app/services/alert_service.py` lines 356-490 and 558-591) -/

/-- `ORDER BY sent_at DESC` comparison; Postgres puts NULLs first in a
descending order. -/
def sentAtDescBefore (a b : Alert) : Bool :=
  match a.sent_at, b.sent_at with
  | none, _ => true
  | some _, none => false
  | some x, some y => decide (y ≤ x)

/-- The alert query of `get_inbox` (alert_service.py lines 412-440):
status `sent`, not expired (`expires_at IS NULL OR expires_at > now`),
optional severity equality filter and optional
`neighborhoods @> [neighborhood_filter]` containment filter (NULL array
matches nothing), ordered by `sent_at` descending, `LIMIT 100`. -/
def inboxCandidates (alerts : List Alert) (now : Nat)
    (severity_filter neighborhood_filter : Option String) : List Alert :=
  let filtered := alerts.filter fun a =>
    a.status == "sent" &&
    (match a.expires_at with
     | none => true
     | some t => decide (now < t)) &&
    (match severity_filter with
     | none => true
     | some sv => a.severity == sv) &&
    (match neighborhood_filter with
     | none => true
     | some nf =>
       match a.neighborhoods with
       | some l => l.contains nf
       | none => false)
  (filtered.mergeSort sentAtDescBefore).take 100

/-- `AlertService._check_alert_match` (alert_service.py lines 558-591):
broadcast first; then "geo" when coordinates were supplied and some area
contains the point; then "neighborhood" when the supplied/stored
neighborhood list overlaps the alert's; else no match. -/
def checkAlertMatch (st_contains : Nat → GeoPoint → Bool) (alert : Alert)
    (lat lon : Option Int) (neighborhoods : Option (List String)) :
    Option String :=
  if alert.broadcast then some "broadcast"
  else if lat.isSome && lon.isSome && !alert.areas.isEmpty &&
      alert.areas.any (fun ar =>
        st_contains ar.geom { lon := lon.getD 0, lat := lat.getD 0 }) then
    some "geo"
  else if optListTruthy neighborhoods && optListTruthy alert.neighborhoods &&
      !((neighborhoods.getD []) ∩ (alert.neighborhoods.getD [])).isEmpty then
    some "neighborhood"
  else none

/-- The delivery row `get_inbox` consults for read state: the dict
`{d.alert_id: d}` over the device's deliveries keeps the last row per
alert id (alert_service.py lines 442-448). -/
def deliveryFor (deliveries : List DeliveryRow) (device_id alert_id : String) :
    Option DeliveryRow :=
  ((deliveries.filter fun dl => dl.device_id == device_id).filter
    fun dl => dl.alert_id == alert_id).getLast?

/-- `InboxAlert` (app/schemas/alert.py) as built by `get_inbox`. -/
structure InboxAlert where
  id : String
  title : String
  body : String
  severity : String
  sent_at : Option Nat
  expires_at : Option Nat
  neighborhoods : Option (List String)
  match_type : String
  is_read : Bool
  read_at : Option Nat
deriving Repr, DecidableEq

/-- The body of the per-candidate loop of `get_inbox` (alert_service.py
lines 454-488): skip non-matching alerts; count unmatched-unread before
the `unread_only` skip; append the annotated inbox entry otherwise. -/
def inboxStep (st_contains : Nat → GeoPoint → Bool) (lat lon : Option Int)
    (device_neighborhoods : Option (List String))
    (deliveries : List DeliveryRow) (device_id : String) (unread_only : Bool)
    (acc : List InboxAlert × Nat) (alert : Alert) : List InboxAlert × Nat :=
  match checkAlertMatch st_contains alert lat lon device_neighborhoods with
  | none => acc
  | some mt =>
    let delivery := deliveryFor deliveries device_id alert.id
    let is_read :=
      match delivery with
      | some dl => dl.read_at.isSome
      | none => false
    let read_at :=
      match delivery with
      | some dl => dl.read_at
      | none => none
    let unread := if is_read then acc.2 else acc.2 + 1
    if unread_only && is_read then (acc.1, unread)
    else
      (acc.1 ++ [{ id := alert.id, title := alert.title, body := alert.body,
                   severity := alert.severity, sent_at := alert.sent_at,
                   expires_at := alert.expires_at,
                   neighborhoods := alert.neighborhoods, match_type := mt,
                   is_read := is_read, read_at := read_at }], unread)

/-- `AlertService.get_inbox` (alert_service.py lines 356-490).  A token
matching no registered device returns `([], 0)` — no `NotFoundError` is
raised, unlike `mark_alert_as_read`.  Otherwise the supplied coordinates
are used as-is (the stored device location is never extracted), the
stored neighborhoods serve as fallback when none are supplied, and the
candidate alerts are iterated with `inboxStep`. -/
def getInbox (st_contains : Nat → GeoPoint → Bool) (devices : List Device)
    (alerts : List Alert) (deliveries : List DeliveryRow)
    (device_token : String) (lat lon : Option Int)
    (neighborhoods : Option (List String))
    (severity_filter neighborhood_filter : Option String)
    (unread_only : Bool) (now : Nat) : List InboxAlert × Nat :=
  match devices.find? (fun d => d.push_token == some device_token) with
  | none => ([], 0)
  | some device =>
    let device_neighborhoods :=
      if optListTruthy device.neighborhoods && !optListTruthy neighborhoods then
        device.neighborhoods
      else neighborhoods
    let candidates := inboxCandidates alerts now severity_filter neighborhood_filter
    candidates.foldl
      (inboxStep st_contains lat lon device_neighborhoods deliveries device.id
        unread_only)
      ([], 0)

theorem chunksOfFuel_nil {α : Type} (eff : Nat) :
    ∀ fuel, chunksOfFuel eff fuel ([] : List α) = [] := by
  intro fuel
  cases fuel with
  | zero => rfl
  | succ n =>
    rw [chunksOfFuel]
    have hcond : eff = 0 ∨ ([] : List α).length = 0 := Or.inr rfl
    rw [if_pos hcond]

theorem chunksOfFuel_step {α : Type} (eff fuel : Nat) (l : List α)
    (h : ¬(eff = 0 ∨ l.length = 0)) :
    chunksOfFuel eff (fuel + 1) l = l.take eff :: chunksOfFuel eff fuel (l.drop eff) := by
  rw [chunksOfFuel]
  rw [if_neg h]

theorem chunksOfFuel_fuel_irrel {α : Type} (eff : Nat) (heff : 0 < eff) :
    ∀ (fuel fuel' : Nat) (l : List α), l.length ≤ fuel → l.length ≤ fuel' →
      chunksOfFuel eff fuel l = chunksOfFuel eff fuel' l := by
  intro fuel
  induction fuel with
  | zero =>
    intro fuel' l hl hl'
    have hl0 : l = [] := List.length_eq_zero.mp (Nat.le_zero.mp hl)
    subst hl0
    rw [chunksOfFuel_nil, chunksOfFuel_nil]
  | succ n ih =>
    intro fuel' l hl hl'
    by_cases hz : eff = 0 ∨ l.length = 0
    · rcases hz with hz | hz
      · omega
      · have hl0 : l = [] := List.length_eq_zero.mp hz
        subst hl0
        rw [chunksOfFuel_nil, chunksOfFuel_nil]
    · cases fuel' with
      | zero =>
        have : l.length = 0 := Nat.le_zero.mp hl'
        omega
      | succ m =>
        rw [chunksOfFuel_step eff n l hz, chunksOfFuel_step eff m l hz]
        have hlen : (l.drop eff).length ≤ n := by
          simp only [List.length_drop]
          omega
        have hlen' : (l.drop eff).length ≤ m := by
          simp only [List.length_drop]
          omega
        rw [ih m (l.drop eff) hlen hlen']

theorem chunksOf_cons_of_ne {α : Type} (eff : Nat) (heff : 0 < eff) (l : List α)
    (hl : l ≠ []) :
    chunksOf eff l = l.take eff :: chunksOf eff (l.drop eff) := by
  have hlen : l.length ≠ 0 := fun h => hl (List.length_eq_zero.mp h)
  have hz : ¬(eff = 0 ∨ l.length = 0) := by omega
  rw [chunksOf]
  cases hn : l.length with
  | zero => omega
  | succ n =>
    rw [chunksOfFuel_step eff n l (by omega)]
    rw [chunksOf]
    have h1 : (l.drop eff).length ≤ n := by
      simp only [List.length_drop]
      omega
    rw [chunksOfFuel_fuel_irrel eff heff n (l.drop eff).length (l.drop eff) h1 le_rfl]

theorem chunksOf_nil_eq {α : Type} (eff : Nat) : chunksOf eff ([] : List α) = [] := by
  rw [chunksOf, chunksOfFuel_nil]

theorem chunksOf_flatten {α : Type} (eff : Nat) (heff : 0 < eff) (l : List α) :
    (chunksOf eff l).flatten = l := by
  suffices h : ∀ n (l : List α), l.length ≤ n → (chunksOf eff l).flatten = l from
    h l.length l le_rfl
  intro n
  induction n with
  | zero =>
    intro l hl
    have hl0 : l = [] := List.length_eq_zero.mp (Nat.le_zero.mp hl)
    subst hl0
    rw [chunksOf_nil_eq]
    rfl
  | succ n ih =>
    intro l hl
    cases hc : l with
    | nil =>
      rw [chunksOf_nil_eq]
      rfl
    | cons x xs =>
      rw [← hc]
      have hne : l ≠ [] := by rw [hc]; exact List.cons_ne_nil x xs
      rw [chunksOf_cons_of_ne eff heff l hne, List.flatten_cons]
      rw [ih (l.drop eff) (by simp only [List.length_drop]; omega)]
      exact List.take_append_drop eff l

theorem chunksOf_mem_length_le {α : Type} (eff : Nat) (l : List α) (c : List α)
    (hc : c ∈ chunksOf eff l) : c.length ≤ eff := by
  by_cases heff : 0 < eff
  · suffices h : ∀ n (l : List α), l.length ≤ n →
        ∀ c ∈ chunksOf eff l, c.length ≤ eff from h l.length l le_rfl c hc
    intro n
    induction n with
    | zero =>
      intro l hl c hcm
      have hl0 : l = [] := List.length_eq_zero.mp (Nat.le_zero.mp hl)
      subst hl0
      rw [chunksOf_nil_eq] at hcm
      simp at hcm
    | succ n ih =>
      intro l hl c hcm
      cases hcl : l with
      | nil =>
        subst hcl
        rw [chunksOf_nil_eq] at hcm
        simp at hcm
      | cons x xs =>
        have hne : l ≠ [] := by rw [hcl]; exact List.cons_ne_nil x xs
        rw [chunksOf_cons_of_ne eff heff l hne] at hcm
        rcases List.mem_cons.mp hcm with hc1 | hc2
        · subst hc1
          simp [List.length_take]
        · exact ih (l.drop eff) (by simp only [List.length_drop]; omega) c hc2
  · have heff0 : eff = 0 := by omega
    subst heff0
    rw [chunksOf] at hc
    cases hn : l.length with
    | zero =>
      rw [hn] at hc
      simp [chunksOfFuel] at hc
    | succ n =>
      rw [hn] at hc
      rw [chunksOfFuel, if_pos (Or.inl rfl)] at hc
      simp at hc

theorem chunksOf_750_500 {α : Type} (l : List α) (hlen : l.length = 750) :
    (chunksOf 500 l).map List.length = [500, 250] := by
  have hne : l ≠ [] := by
    intro h
    rw [h] at hlen
    simp at hlen
  have h1 : chunksOf 500 l = l.take 500 :: chunksOf 500 (l.drop 500) :=
    chunksOf_cons_of_ne 500 (by omega) l hne
  have hd1 : (l.drop 500).length = 250 := by simp [List.length_drop, hlen]
  have hne2 : l.drop 500 ≠ [] := by
    intro h
    rw [h] at hd1
    simp at hd1
  have h2 : chunksOf 500 (l.drop 500) =
      (l.drop 500).take 500 :: chunksOf 500 ((l.drop 500).drop 500) :=
    chunksOf_cons_of_ne 500 (by omega) (l.drop 500) hne2
  have hd2 : (l.drop 500).drop 500 = [] := by
    rw [List.drop_eq_nil_iff]
    simp [List.length_drop, hlen]
  have h3 : chunksOf 500 ((l.drop 500).drop 500) = [] := by
    rw [hd2, chunksOf_nil_eq]
  rw [h1, h2, h3, List.map_cons, List.map_cons, List.map_nil,
    List.length_take, List.length_take, hd1, hlen]
  decide

theorem callsOf_traceOf (chunks : List (List PushNotification)) :
    callsOf (traceOf chunks) = chunks := by
  induction chunks with
  | nil => rfl
  | cons c rest ih =>
    cases rest with
    | nil => rfl
    | cons c' rest' =>
      rw [traceOf, callsOf, callsOf, ih]

theorem delaysOf_traceOf (chunks : List (List PushNotification)) :
    delaysOf (traceOf chunks) = chunks.length - 1 := by
  induction chunks with
  | nil => rfl
  | cons c rest ih =>
    cases rest with
    | nil => rfl
    | cons c' rest' =>
      rw [traceOf, delaysOf, delaysOf, ih]
      simp only [List.length_cons]
      omega

theorem flatten_map_map {α β : Type} (L : List (List α)) (f : α → β) :
    (L.map (List.map f)).flatten = L.flatten.map f := by
  induction L with
  | nil => rfl
  | cons c rest ih =>
    rw [List.map_cons, List.flatten_cons, List.flatten_cons, List.map_append, ih]

theorem effectiveBatchSize_pos (config : Nat) (hcfg : 0 < config) :
    ∀ bs : Option Nat, (∀ b, bs = some b → 0 < b) → 0 < effectiveBatchSize config bs
  | none, _ => by
    simp only [effectiveBatchSize]
    omega
  | some b, hbs => by
    have hb := hbs b rfl
    simp only [effectiveBatchSize]
    rw [if_neg (by omega)]
    omega

theorem sendBatch_results (respond : PushNotification → FcmSendResponse)
    (config : Nat) (hcfg : 0 < config) (batch_size : Option Nat)
    (hbs : ∀ b, batch_size = some b → 0 < b) (ns : List PushNotification) :
    (sendBatch respond config batch_size ns).1 = ns.map (fcmResultOf respond) := by
  rw [sendBatch]
  by_cases hne : ns.isEmpty
  · rw [if_pos hne]
    rw [List.isEmpty_iff] at hne
    simp [hne]
  · rw [if_neg hne]
    have heff : 0 < effectiveBatchSize config batch_size :=
      effectiveBatchSize_pos config hcfg batch_size hbs
    have hfb : sendFcmBatch respond = List.map (fcmResultOf respond) := rfl
    show (((chunksOf (effectiveBatchSize config batch_size) ns).map
      (sendFcmBatch respond)).flatten) = ns.map (fcmResultOf respond)
    rw [hfb, flatten_map_map, chunksOf_flatten _ heff]

theorem sendBatch_trace (respond : PushNotification → FcmSendResponse)
    (config : Nat) (batch_size : Option Nat) (ns : List PushNotification) :
    (sendBatch respond config batch_size ns).2 =
      traceOf (chunksOf (effectiveBatchSize config batch_size) ns) := by
  rw [sendBatch]
  by_cases hne : ns.isEmpty
  · rw [if_pos hne]
    rw [List.isEmpty_iff] at hne
    subst hne
    rw [chunksOf_nil_eq]
    rfl
  · rw [if_neg hne]

theorem handleFcmError_status_cases (t s c : String) :
    (handleFcmError t s c).provider_status = "invalid_token" ∨
    (handleFcmError t s c).provider_status = "failed" := by
  rw [handleFcmError]
  by_cases h1 : errorMatches INVALID_TOKEN_ERRORS s c
  · rw [if_pos h1]
    exact Or.inl rfl
  · rw [if_neg h1]
    by_cases h2 : errorMatches TEMPORARY_ERROR_CODES s c
    · rw [if_pos h2]
      exact Or.inr rfl
    · rw [if_neg h2]
      exact Or.inr rfl

theorem sendBatch_mem_of_mem (respond : PushNotification → FcmSendResponse)
    (config : Nat) (bs : Option Nat) (ns : List PushNotification) (r : PushResult)
    (hr : r ∈ (sendBatch respond config bs ns).1) :
    ∃ n, r = fcmResultOf respond n := by
  rw [sendBatch] at hr
  by_cases hne : ns.isEmpty
  · rw [if_pos hne] at hr
    simp at hr
  · rw [if_neg hne] at hr
    have hfb : sendFcmBatch respond = List.map (fcmResultOf respond) := rfl
    simp only [hfb, flatten_map_map] at hr
    rcases List.mem_map.mp hr with ⟨n, _, hn⟩
    exact ⟨n, hn.symm⟩

/-- C7: `PushProvider.send_batch` splits its input into consecutive chunks
of at most the effective batch size (the configured size capped at 500),
issues one provider batch call per chunk with a delay between consecutive
chunks, returns one result per input notification in order, and for 750
notifications with batch size 500 makes exactly two provider calls of
sizes 500 and 250. -/
theorem c7_sendBatch_chunking (respond : PushNotification → FcmSendResponse)
    (config : Nat) (hcfg : 0 < config) (ns : List PushNotification) :
    callsOf (sendBatch respond config none ns).2 =
      chunksOf (effectiveBatchSize config none) ns ∧
    (∀ c ∈ callsOf (sendBatch respond config none ns).2,
      c.length ≤ effectiveBatchSize config none) ∧
    (callsOf (sendBatch respond config none ns).2).flatten = ns ∧
    delaysOf (sendBatch respond config none ns).2 =
      (callsOf (sendBatch respond config none ns).2).length - 1 ∧
    (sendBatch respond config none ns).1 = ns.map (fcmResultOf respond) ∧
    (ns.length = 750 → config = 500 →
      (callsOf (sendBatch respond config none ns).2).map List.length = [500, 250]) := by
  have heff : 0 < effectiveBatchSize config none :=
    effectiveBatchSize_pos config hcfg none (fun b h => by cases h)
  have htr := sendBatch_trace respond config none ns
  have hcalls : callsOf (sendBatch respond config none ns).2 =
      chunksOf (effectiveBatchSize config none) ns := by
    rw [htr, callsOf_traceOf]
  refine ⟨hcalls, ?_, ?_, ?_, ?_, ?_⟩
  · intro c hc
    rw [hcalls] at hc
    exact chunksOf_mem_length_le _ _ _ hc
  · rw [hcalls]
    exact chunksOf_flatten _ heff ns
  · rw [hcalls, htr, delaysOf_traceOf]
  · exact sendBatch_results respond config hcfg none (fun b h => by cases h) ns
  · intro h750 h500
    subst h500
    rw [hcalls]
    have he : effectiveBatchSize 500 none = 500 := rfl
    rw [he]
    exact chunksOf_750_500 ns h750

/-- Witness for C7: 750 notifications, configured batch size 500, yield
exactly two provider batch calls of sizes 500 and 250. -/
theorem c7_sendBatch_chunking_witness :
    0 < 500 ∧
    (callsOf (sendBatch sampleRespondOk 500 none
      (List.replicate 750 sampleNotif)).2).map List.length = [500, 250] := by
  refine ⟨by decide, ?_⟩
  exact (c7_sendBatch_chunking sampleRespondOk 500 (by decide)
    (List.replicate 750 sampleNotif)).2.2.2.2.2 (by rw [List.length_replicate]) rfl

/-- C8: every failed push attempt gets exactly one classification with
invalid-token precedence: an error matching an invalid-token code yields
status `invalid_token`; otherwise a temporary-code match yields `failed`
with a retryable message; otherwise `failed` with the raw error text.
The two code tables are disjoint, and every result of the batch path has
status in {sent, failed, invalid_token}. -/
theorem c8_error_classification :
    (∀ c ∈ INVALID_TOKEN_ERRORS, c ∉ TEMPORARY_ERROR_CODES) ∧
    (∀ t s c,
      (handleFcmError t s c).success = false ∧
      (errorMatches INVALID_TOKEN_ERRORS s c = true →
        (handleFcmError t s c).provider_status = "invalid_token") ∧
      (errorMatches INVALID_TOKEN_ERRORS s c = false →
        errorMatches TEMPORARY_ERROR_CODES s c = true →
        (handleFcmError t s c).provider_status = "failed" ∧
        (handleFcmError t s c).error_message =
          some ("Temporary error (retry possible): " ++ s)) ∧
      (errorMatches INVALID_TOKEN_ERRORS s c = false →
        errorMatches TEMPORARY_ERROR_CODES s c = false →
        (handleFcmError t s c).provider_status = "failed" ∧
        (handleFcmError t s c).error_message = some s)) ∧
    (∀ respond config bs ns r, r ∈ (sendBatch respond config bs ns).1 →
      r.provider_status = "sent" ∨ r.provider_status = "failed" ∨
      r.provider_status = "invalid_token") := by
  refine ⟨by decide, ?_, ?_⟩
  · intro t s c
    refine ⟨?_, ?_, ?_, ?_⟩
    · rw [handleFcmError]
      by_cases h1 : errorMatches INVALID_TOKEN_ERRORS s c
      · rw [if_pos h1]
      · rw [if_neg h1]
        by_cases h2 : errorMatches TEMPORARY_ERROR_CODES s c
        · rw [if_pos h2]
        · rw [if_neg h2]
    · intro h1
      rw [handleFcmError, if_pos h1]
    · intro h1 h2
      rw [handleFcmError, if_neg (by simp [h1]), if_pos h2]
      exact ⟨rfl, rfl⟩
    · intro h1 h2
      rw [handleFcmError, if_neg (by simp [h1]), if_neg (by simp [h2])]
      exact ⟨rfl, rfl⟩
  · intro respond config bs ns r hr
    rcases sendBatch_mem_of_mem respond config bs ns r hr with ⟨n, hn⟩
    subst hn
    rw [fcmResultOf]
    cases respond n with
    | ok mid => exact Or.inl rfl
    | err s c =>
      rcases handleFcmError_status_cases n.device_token s c with h | h
      · exact Or.inr (Or.inr h)
      · exact Or.inr (Or.inl h)

/-- Witness for C8: an `UNREGISTERED` gateway error is classified as
`invalid_token`; an `UNAVAILABLE` error as retryable `failed`. -/
theorem c8_error_classification_witness :
    (errorMatches INVALID_TOKEN_ERRORS "UNREGISTERED" "" = true ∧
      (handleFcmError "tok" "UNREGISTERED" "").provider_status = "invalid_token") ∧
    (errorMatches INVALID_TOKEN_ERRORS "UNAVAILABLE" "" = false ∧
      errorMatches TEMPORARY_ERROR_CODES "UNAVAILABLE" "" = true ∧
      (handleFcmError "tok" "UNAVAILABLE" "").provider_status = "failed") := by
  constructor
  · exact ⟨by decide, (c8_error_classification.2.1 "tok" "UNREGISTERED" "").2.1 (by decide)⟩
  · exact ⟨by decide, by decide,
      ((c8_error_classification.2.1 "tok" "UNAVAILABLE" "").2.2.1 (by decide) (by decide)).1⟩

theorem arrayOverlap_iff_inter (l1 l2 : List String) :
    arrayOverlap l1 l2 = true ↔ l1 ∩ l2 ≠ [] := by
  rw [arrayOverlap]
  constructor
  · intro h hnil
    rcases List.any_eq_true.mp h with ⟨x, hx1, hx2⟩
    have hx2m : x ∈ l2 := by simpa using hx2
    have hmem : x ∈ l1 ∩ l2 := List.mem_inter_iff.mpr ⟨hx1, hx2m⟩
    rw [hnil] at hmem
    simp at hmem
  · intro h
    rcases List.exists_mem_of_ne_nil _ h with ⟨x, hx⟩
    rcases List.mem_inter_iff.mp hx with ⟨hx1, hx2⟩
    exact List.any_eq_true.mpr ⟨x, hx1, by simpa using hx2⟩

theorem any_map_id {α : Type} (l : List α) (f : α → Bool) :
    (l.map f).any id = l.any f := by
  induction l with
  | nil => rfl
  | cons x xs ih => simp [ih]

theorem buildDeviceQueryPred_eq (st_contains : Nat → GeoPoint → Bool)
    (alert : Alert) (d : Device) (hb : alert.broadcast = false) :
    buildDeviceQueryPred st_contains alert d =
      (d.push_token.isSome &&
        (alert.areas.any (fun a => geoCondition st_contains a d) ||
         neighborhoodCondition alert d)) := by
  rw [buildDeviceQueryPred, neighborhoodCondition]
  simp only [hb, Bool.false_eq_true, if_false]
  cases ht : optListTruthy alert.neighborhoods
  · rw [if_neg Bool.false_ne_true, List.append_nil, Bool.false_and, Bool.or_false]
    by_cases ha : alert.areas = []
    · rw [ha]
      simp
    · rw [if_neg (by simp [List.isEmpty_iff, ha]), any_map_id]
  · rw [if_pos rfl, if_neg (by simp), List.any_append, any_map_id, Bool.true_and]
    simp [List.any_cons]

/-- C3: for every alert with `broadcast = true`, the device query matches
exactly the devices holding a push token, regardless of the alert's
areas and neighborhoods fields. -/
theorem c3_broadcast_targets_all (st_contains : Nat → GeoPoint → Bool)
    (alert : Alert) (hb : alert.broadcast = true) (devices : List Device) :
    getTargetedDevices st_contains alert devices =
      devices.filter (fun d => d.push_token.isSome) ∧
    (∀ d : Device, buildDeviceQueryPred st_contains alert d = d.push_token.isSome) := by
  have hp : ∀ d : Device, buildDeviceQueryPred st_contains alert d = d.push_token.isSome := by
    intro d
    rw [buildDeviceQueryPred]
    simp only [hb, if_true]
  refine ⟨?_, hp⟩
  rw [getTargetedDevices]
  exact List.filter_congr (fun d _ => hp d)

/-- Witness for C3: a broadcast alert carrying both an area and a
neighborhood list targets the device with a token and skips the device
whose token is NULL. -/
theorem c3_broadcast_targets_all_witness :
    broadcastAlert.broadcast = true ∧
    getTargetedDevices sampleContains broadcastAlert [deviceA, deviceNoToken] =
      List.filter (fun d => d.push_token.isSome) [deviceA, deviceNoToken] :=
  ⟨rfl, (c3_broadcast_targets_all sampleContains broadcastAlert rfl
    [deviceA, deviceNoToken]).1⟩

/-- C4: for a non-broadcast alert, a device with no last-known location
(and a push token) is in the target set iff its neighborhoods intersect
the alert's neighborhood list; and a non-broadcast alert with no areas
and no (truthy) neighborhoods targets no device at all. -/
theorem c4_neighborhood_fallback (st_contains : Nat → GeoPoint → Bool) :
    (∀ (alert : Alert) (d : Device),
      alert.broadcast = false → d.last_location = none →
      d.push_token.isSome = true →
      (buildDeviceQueryPred st_contains alert d = true ↔
        (d.neighborhoods.getD []) ∩ (alert.neighborhoods.getD []) ≠ [])) ∧
    (∀ (alert : Alert) (d : Device),
      alert.broadcast = false → alert.areas = [] →
      optListTruthy alert.neighborhoods = false →
      buildDeviceQueryPred st_contains alert d = false) := by
  constructor
  · intro alert d hb hl hp
    rw [buildDeviceQueryPred_eq st_contains alert d hb]
    have hgeo : alert.areas.any (fun a => geoCondition st_contains a d) = false := by
      rw [List.any_eq_false]
      intro a _
      simp [geoCondition, hl]
    rw [hp, hgeo, Bool.true_and, Bool.false_or, neighborhoodCondition, hl]
    cases hdn : d.neighborhoods with
    | none =>
      simp only [Option.getD_none]
      constructor
      · intro h
        simp at h
      · intro h
        simp [List.inter] at h
    | some dl =>
      cases han : alert.neighborhoods with
      | none =>
        simp only [Option.getD_none, optListTruthy]
        constructor
        · intro h
          simp at h
        · intro h
          exact absurd (by simp : dl ∩ ([] : List String) = []) h
      | some al =>
        cases al with
        | nil =>
          simp only [Option.getD_some, optListTruthy]
          constructor
          · intro h
            simp at h
          · intro h
            exact absurd (by simp : dl ∩ ([] : List String) = []) h
        | cons a0 al' =>
          simp only [Option.getD_some, optListTruthy, Option.isSome_some,
            Option.isNone_none, List.isEmpty_cons, Bool.not_false,
            Bool.true_and, Bool.and_true]
          exact arrayOverlap_iff_inter dl (a0 :: al')
  · intro alert d hb ha ht
    rw [buildDeviceQueryPred_eq st_contains alert d hb, ha, neighborhoodCondition, ht]
    simp

/-- Witness for C4: the neighborhood fallback matches a located-nowhere
device sharing "copacabana" with the alert, and the no-criteria alert
matches nobody. -/
theorem c4_neighborhood_fallback_witness :
    (nbhdAlert.broadcast = false ∧ deviceA.last_location = none ∧
      deviceA.push_token.isSome = true ∧
      buildDeviceQueryPred sampleContains nbhdAlert deviceA = true) ∧
    (emptyTargetAlert.broadcast = false ∧ emptyTargetAlert.areas = [] ∧
      optListTruthy emptyTargetAlert.neighborhoods = false ∧
      buildDeviceQueryPred sampleContains emptyTargetAlert deviceA = false) := by
  constructor
  · refine ⟨rfl, rfl, rfl, ?_⟩
    exact ((c4_neighborhood_fallback sampleContains).1 nbhdAlert deviceA rfl rfl
      rfl).mpr (by decide)
  · exact ⟨rfl, rfl, rfl,
      (c4_neighborhood_fallback sampleContains).2 emptyTargetAlert deviceA rfl rfl rfl⟩

/-- C5 (code bug): when the provider call succeeds but the cache write
fails, `get_current_weather` does NOT return the fresh payload.  The
`CacheException` re-raised by `CacheService.set` is swallowed by the
service's blanket `except Exception` and control lands on the fallback
path: with an empty cache the request fails with the provider-unavailable
error, and with an older live entry it serves that stale entry instead of
the fresh data. -/
theorem c5_cache_write_failure_drops_fresh_payload (d : String) (now ttl : Nat) :
    (getCurrentWeather (.ok d) false none now ttl).2 = .error weatherUnavailable ∧
    (getCurrentWeather (.ok d) false
        (some { value := "old", written_at := 0, ttl := now + 1 }) now ttl).2 =
      .ok { success := true, data := "old",
            cache := some { stale := true, age_seconds := some now } } := by
  constructor
  · rfl
  · have hlive : cacheLive (some { value := "old", written_at := 0, ttl := now + 1 })
        now = some { value := "old", written_at := 0, ttl := now + 1 } := by
      rw [cacheLive, if_pos (by show now < 0 + (now + 1); omega)]
    rw [getCurrentWeather]
    simp only [getFallback, hlive, Bool.false_eq_true, if_false, Nat.sub_zero]

/-- C6 counterexample: the provider fails and the cache holds a value
written 130 seconds ago under a nominal TTL of 60 seconds.  The service
stored it with `SETEX 60 * 2 = 120`, so by 130 seconds Redis has expired
the key: the code surfaces the typed source-unavailable failure instead
of returning the cached payload with `stale=true, age_seconds=130` as the
claim states. -/
theorem c6_stale_after_double_ttl_counterexample :
    (getCurrentWeather (.failedResult "provider down") true
      (some { value := "cached", written_at := 0, ttl := 60 * 2 }) 130 60).2 =
      .error weatherUnavailable := by
  rfl

/-- C6 amended: on any provider failure, a cached entry still live under
its stored TTL is returned with `stale = true` and
`age_seconds = now - write timestamp`; an expired entry (such as one
written 130 seconds ago whose stored TTL is `2 * 60 = 120`) and an empty
cache both surface the typed source-unavailable failure. -/
theorem c6_fallback_behavior (f : FetchOutcome) (hf : fetchFailed f = true)
    (cw : Bool) (entry : CacheEntry) (now ttl : Nat) :
    (now < entry.written_at + entry.ttl →
      (getCurrentWeather f cw (some entry) now ttl).2 =
        .ok { success := true, data := entry.value,
              cache := some { stale := true,
                              age_seconds := some (now - entry.written_at) } }) ∧
    (entry.written_at + entry.ttl ≤ now →
      (getCurrentWeather f cw (some entry) now ttl).2 = .error weatherUnavailable) ∧
    (getCurrentWeather f cw none now ttl).2 = .error weatherUnavailable := by
  refine ⟨?_, ?_, ?_⟩
  · intro hlt
    have hlive : cacheLive (some entry) now = some entry := by
      rw [cacheLive, if_pos hlt]
    cases f with
    | ok _ => exact absurd hf (by rw [fetchFailed]; exact Bool.false_ne_true)
    | failedResult e =>
      rw [getCurrentWeather]
      simp only [getFallback, hlive]
    | raised m =>
      rw [getCurrentWeather]
      simp only [getFallback, hlive]
  · intro hge
    have hdead : cacheLive (some entry) now = none := by
      rw [cacheLive, if_neg (by omega)]
    cases f with
    | ok _ => exact absurd hf (by rw [fetchFailed]; exact Bool.false_ne_true)
    | failedResult e =>
      rw [getCurrentWeather]
      simp only [getFallback, hdead]
    | raised m =>
      rw [getCurrentWeather]
      simp only [getFallback, hdead]
  · cases f with
    | ok _ => exact absurd hf (by rw [fetchFailed]; exact Bool.false_ne_true)
    | failedResult e => rfl
    | raised m => rfl

/-- Witness for the amended C6: provider failing, entry written 100
seconds ago with stored TTL 120 — served stale with age 100. -/
theorem c6_fallback_behavior_witness :
    fetchFailed (.failedResult "x") = true ∧
    (100 : Nat) < 0 + 120 ∧
    (getCurrentWeather (.failedResult "x") true
        (some { value := "v", written_at := 0, ttl := 120 }) 100 60).2 =
      .ok { success := true, data := "v",
            cache := some { stale := true, age_seconds := some 100 } } :=
  ⟨rfl, by omega,
    (c6_fallback_behavior (.failedResult "x") rfl true
      { value := "v", written_at := 0, ttl := 120 } 100 60).1 (by decide)⟩

/-- C2: sending an alert whose status is `sent` or `canceled` always
fails with a 422 validation error whose message identifies the current
status, and leaves the alert table — hence the alert's status and
`sent_at` — unchanged. -/
theorem c2_send_terminal_fails (st_contains : Nat → GeoPoint → Bool)
    (alerts : List Alert) (devices : List Device) (alert_id : String)
    (now : Nat) (task_id : Option String) (a : Alert)
    (hfind : alerts.find? (fun b => b.id == alert_id) = some a)
    (hstatus : a.status = "sent" ∨ a.status = "canceled") :
    (sendAlertService st_contains alerts devices alert_id now task_id).1 = alerts ∧
    ∃ e, (sendAlertService st_contains alerts devices alert_id now task_id).2 =
        .error e ∧
      e.status_code = 422 ∧ e.code = "VALIDATION_ERROR" ∧
      (a.status = "sent" → e.message = "Alert already sent") ∧
      (a.status = "canceled" → e.message = "Alert was canceled") := by
  rcases hstatus with h | h
  · have hres : sendAlertService st_contains alerts devices alert_id now task_id =
        (alerts, .error (validationError "Alert already sent")) := by
      simp only [sendAlertService, hfind, if_pos h]
    rw [hres]
    exact ⟨rfl, validationError "Alert already sent", rfl, rfl, rfl,
      fun _ => rfl, fun hc => by rw [h] at hc; exact absurd hc (by decide)⟩
  · have hne : ¬(a.status = "sent") := by rw [h]; decide
    have hres : sendAlertService st_contains alerts devices alert_id now task_id =
        (alerts, .error (validationError "Alert was canceled")) := by
      simp only [sendAlertService, hfind, if_neg hne, if_pos h]
    rw [hres]
    exact ⟨rfl, validationError "Alert was canceled", rfl, rfl, rfl,
      fun hc => by rw [h] at hc; exact absurd hc (by decide), fun _ => rfl⟩

/-- Witness for C2: a concrete `sent` alert is rejected with the 422
"Alert already sent" error and the table is untouched. -/
theorem c2_send_terminal_fails_witness :
    ([sentAlert].find? (fun b => b.id == "alert-s") = some sentAlert) ∧
    (sentAlert.status = "sent" ∨ sentAlert.status = "canceled") ∧
    (sendAlertService sampleContains [sentAlert] [deviceA] "alert-s" 999
      (some "task-1")).1 = [sentAlert] ∧
    ∃ e, (sendAlertService sampleContains [sentAlert] [deviceA] "alert-s" 999
        (some "task-1")).2 = .error e ∧
      e.status_code = 422 ∧ e.message = "Alert already sent" := by
  have h := c2_send_terminal_fails sampleContains [sentAlert] [deviceA] "alert-s"
    999 (some "task-1") sentAlert (by decide) (Or.inl rfl)
  refine ⟨by decide, Or.inl rfl, h.1, ?_⟩
  rcases h.2 with ⟨e, he, h422, _, hmsg, _⟩
  exact ⟨e, he, h422, hmsg rfl⟩

theorem recordBatch_cons_error (alert_id : String) (now : Nat)
    (p : PushResult × Device) (ps : List (PushResult × Device)) :
    recordBatch alert_id now (p :: ps) = .error errorAttrMessage := by
  obtain ⟨r, d⟩ := p
  rw [recordBatch]
  have hattr : pyGetAttr r "error" = none := rfl
  rw [hattr]

theorem runBatches_first_error (alert : Alert)
    (respond : PushNotification → FcmSendResponse) (now : Nat)
    (committed : List DeliveryRow) (b : List Device) (bs : List (List Device))
    (hb : b ≠ []) :
    runBatches alert respond now committed (b :: bs) =
      (committed, some errorAttrMessage) := by
  cases b with
  | nil => exact absurd rfl hb
  | cons d ds =>
    rw [runBatches]
    simp only [List.map_cons, List.zip_cons_cons]
    rw [recordBatch_cons_error]

/-- C9: the delivery-recording step of `_send_alert` evaluates the
attribute `error` on a `PushResult`, whose dataclass defines exactly
`device_token`, `success`, `provider_status`, `error_message` and
`message_id` — no `error`.  Hence for every job execution whose target
resolution yields at least one device, the access raises, no delivery
row is committed, and the job returns a failure result. -/
theorem c9_push_result_error_attribute (st_contains : Nat → GeoPoint → Bool)
    (alerts : List Alert) (devices : List Device)
    (deliveries : List DeliveryRow)
    (respond : PushNotification → FcmSendResponse) (alert_id : String)
    (now : Nat) (alert : Alert)
    (hfind : alerts.find? (fun a => a.id == alert_id) = some alert)
    (hsent : alert.status = "sent")
    (hne : getTargetedDevices st_contains alert devices ≠ []) :
    (∀ r : PushResult,
      (pushResultAttrs r).map Prod.fst =
        ["device_token", "success", "provider_status", "error_message",
         "message_id"] ∧
      pyGetAttr r "error" = none) ∧
    sendAlertJob st_contains alerts devices deliveries respond alert_id now =
      (deliveries, .failure errorAttrMessage) := by
  refine ⟨fun r => ⟨rfl, rfl⟩, ?_⟩
  have htake : (getTargetedDevices st_contains alert devices).take 100 ≠ [] := by
    intro h
    rcases List.take_eq_nil_iff.mp h with h0 | h0
    · exact absurd h0 (by omega)
    · exact hne h0
  have hchunks := chunksOf_cons_of_ne 100 (by omega)
    (getTargetedDevices st_contains alert devices) hne
  have hemp : ¬((getTargetedDevices st_contains alert devices).isEmpty = true) := by
    intro h
    exact hne (List.isEmpty_iff.mp h)
  simp only [sendAlertJob, hfind]
  rw [if_neg (by simp [hsent])]
  rw [if_neg hemp]
  rw [hchunks, runBatches_first_error alert respond now deliveries _ _ htake]

/-- Witness for C9: the concrete one-device run fails with the attribute
error and leaves the delivery table untouched. -/
theorem c9_push_result_error_attribute_witness :
    ([sentAlert].find? (fun a => a.id == "alert-s") = some sentAlert) ∧
    sentAlert.status = "sent" ∧
    getTargetedDevices sampleContains sentAlert [deviceA] ≠ [] ∧
    sendAlertJob sampleContains [sentAlert] [deviceA] [pendingDelivery]
      sampleRespondOk "alert-s" 999 = ([pendingDelivery], .failure errorAttrMessage) := by
  refine ⟨by decide, rfl, by decide, ?_⟩
  exact (c9_push_result_error_attribute sampleContains [sentAlert] [deviceA]
    [pendingDelivery] sampleRespondOk "alert-s" 999 sentAlert (by decide) rfl
    (by decide)).2

/-- C1 (code bug): the delivery recording of `_send_alert` is not an
upsert.  With a pre-existing delivery row for the (alert, device) pair,
running the job — once or twice — neither updates that row in place nor
creates one: each run aborts on the `push_result.error` access before
any commit and returns a failure, leaving the table exactly as it was. -/
theorem c1_delivery_recording_not_upsert :
    sendAlertJob sampleContains [sentAlert] [deviceA] [pendingDelivery]
      sampleRespondOk "alert-s" 999 = ([pendingDelivery], .failure errorAttrMessage) ∧
    sendAlertJob sampleContains [sentAlert] [deviceA]
      (sendAlertJob sampleContains [sentAlert] [deviceA] [pendingDelivery]
        sampleRespondOk "alert-s" 999).1
      sampleRespondOk "alert-s" 999 = ([pendingDelivery], .failure errorAttrMessage) := by
  exact ⟨rfl, rfl⟩

theorem inboxStep_foldl_mem (st_contains : Nat → GeoPoint → Bool)
    (lat lon : Option Int) (dn : Option (List String))
    (deliveries : List DeliveryRow) (device_id : String) (uo : Bool) :
    ∀ (cands : List Alert) (acc : List InboxAlert × Nat) (ia : InboxAlert),
      ia ∈ (cands.foldl
        (inboxStep st_contains lat lon dn deliveries device_id uo) acc).1 →
      ia ∈ acc.1 ∨ ∃ a ∈ cands, ia.id = a.id := by
  intro cands
  induction cands with
  | nil =>
    intro acc ia h
    exact Or.inl h
  | cons c cs ih =>
    intro acc ia h
    rw [List.foldl_cons] at h
    rcases ih _ ia h with hacc | ⟨a, ha, hid⟩
    · cases hm : checkAlertMatch st_contains c lat lon dn with
      | none =>
        simp only [inboxStep, hm] at hacc
        exact Or.inl hacc
      | some mt =>
        simp only [inboxStep, hm] at hacc
        split at hacc
        · exact Or.inl hacc
        · rcases List.mem_append.mp hacc with h1 | h2
          · exact Or.inl h1
          · have h3 := List.mem_singleton.mp h2
            exact Or.inr ⟨c, List.mem_cons_self c cs, by rw [h3]⟩
    · exact Or.inr ⟨a, List.mem_cons_of_mem c ha, hid⟩

theorem expiryFilterDecode (o : Option Nat) (now : Nat)
    (h : (match o with
          | none => true
          | some t => decide (now < t)) = true) :
    o = none ∨ ∃ t, o = some t ∧ now < t := by
  cases o with
  | none => exact Or.inl rfl
  | some t =>
    right
    exact ⟨t, rfl, by simpa using h⟩

/-- C10: a push token that belongs to no registered device yields the
empty inbox with unread count 0 and raises no not-found error; and for a
registered device every returned inbox entry originates from the
candidate query — the at-most-100 most recently sent, non-expired alerts
with status `sent`. -/
theorem c10_get_inbox (st_contains : Nat → GeoPoint → Bool)
    (devices : List Device) (alerts : List Alert)
    (deliveries : List DeliveryRow) (token : String) (lat lon : Option Int)
    (nbhds : Option (List String)) (sf nf : Option String) (uo : Bool)
    (now : Nat) :
    (devices.find? (fun d => d.push_token == some token) = none →
      getInbox st_contains devices alerts deliveries token lat lon nbhds sf nf
        uo now = ([], 0)) ∧
    (∀ ia ∈ (getInbox st_contains devices alerts deliveries token lat lon nbhds
        sf nf uo now).1,
      ∃ a ∈ inboxCandidates alerts now sf nf, ia.id = a.id) ∧
    (∀ a ∈ inboxCandidates alerts now sf nf,
      a.status = "sent" ∧
      (a.expires_at = none ∨ ∃ t, a.expires_at = some t ∧ now < t)) ∧
    (inboxCandidates alerts now sf nf).length ≤ 100 := by
  refine ⟨?_, ?_, ?_, ?_⟩
  · intro hfind
    simp only [getInbox, hfind]
  · intro ia hia
    cases hfind : devices.find? (fun d => d.push_token == some token) with
    | none =>
      simp only [getInbox, hfind] at hia
      simp at hia
    | some device =>
      simp only [getInbox, hfind] at hia
      rcases inboxStep_foldl_mem st_contains lat lon _ deliveries device.id uo
        (inboxCandidates alerts now sf nf) ([], 0) ia hia with h0 | h
      · simp at h0
      · exact h
  · intro a ha
    simp only [inboxCandidates] at ha
    have h1 := List.mem_mergeSort.mp (List.take_subset _ _ ha)
    rw [List.mem_filter] at h1
    obtain ⟨_, hcond⟩ := h1
    simp only [Bool.and_eq_true, beq_iff_eq] at hcond
    obtain ⟨⟨⟨hs, hexp⟩, _⟩, _⟩ := hcond
    exact ⟨hs, expiryFilterDecode a.expires_at now hexp⟩
  · simp only [inboxCandidates]
    exact List.length_take_le 100 _

/-- Witness for C10: an unregistered token gives the empty inbox with
unread count 0. -/
theorem c10_get_inbox_witness :
    ([deviceA].find? (fun d => d.push_token == some "unknown-token") = none) ∧
    getInbox sampleContains [deviceA] [sentAlert] [pendingDelivery]
      "unknown-token" none none none none none false 999 = ([], 0) := by
  refine ⟨by decide, ?_⟩
  exact (c10_get_inbox sampleContains [deviceA] [sentAlert] [pendingDelivery]
    "unknown-token" none none none none none false 999).1 (by decide)

end CorApi
